import Mathlib

/-!
Verification of the `gdrivepdf2png` service (`src/main.py`), a single-endpoint
pipeline: download a PDF from a URL, rasterize its pages to PNG, upload each
page to Google Drive, return the public links.

The embedding models the externally observable behaviour of each Python
function as a pure Lean function.  External effects (the HTTP response, the
PDF library's parse result, the Drive API's outcomes, the completion order of
concurrent uploads) are inputs to those functions.

A central fact of the source, reflected throughout the embedding: FastAPI's
`HTTPException` is a subclass of `Exception`, so every `HTTPException` raised
inside the `try:` blocks of `download_pdf` (lines 65-76) and
`convert_pdf_to_images` (lines 95-99) is caught by the trailing
`except Exception` handler of the same function (lines 81-83 and 107-109) and
re-raised as a generic 500 error.  The 400-status validation errors that the
code constructs are therefore never observable from outside these functions.
-/

/-- The observable content of a raised `fastapi.HTTPException`. -/
structure HTTPException where
  statusCode : Nat
  detail : String
  deriving Repr, DecidableEq

/-- An HTTP response as observed by `download_pdf`: `response.status`,
`response.headers.get('Content-Type')` (absent header modelled as `none`),
and the body bytes returned by `response.read()`. -/
structure HttpResponse where
  status : Nat
  contentTypeHeader : Option String
  body : List Nat
  deriving Repr, DecidableEq

/-- The outcome of the network interaction inside `download_pdf`'s
`async with` blocks: either a response is obtained, or the transport raises
`aiohttp.ClientError`, or some other non-HTTPException exception escapes. -/
inductive FetchEvent where
  | response (r : HttpResponse)
  | clientError
  | unexpectedError
  deriving Repr, DecidableEq

/-- `MAX_PDF_SIZE = 10 * 1024 * 1024` from `download_pdf` (line 74). -/
def MAX_PDF_SIZE : Nat := 10 * 1024 * 1024

/-- Whether `needle` is a prefix of `haystack`. -/
def listStartsWith (needle haystack : List Char) : Bool :=
  match needle, haystack with
  | [], _ => true
  | _ :: _, [] => false
  | a :: as, b :: bs => a == b && listStartsWith as bs

/-- Whether `needle` occurs contiguously inside `haystack`. -/
def listContainsSub (needle haystack : List Char) : Bool :=
  match haystack with
  | [] => listStartsWith needle []
  | _ :: bs => listStartsWith needle haystack || listContainsSub needle bs

/-- Python's substring test `needle in haystack`. -/
def pyContains (haystack needle : String) : Bool :=
  listContainsSub needle.toList haystack.toList

/-- ASCII lowercasing of one character, the fragment of Python's
`str.lower()` relevant to Content-Type values. -/
def lowerChar (c : Char) : Char :=
  if 65 ≤ c.toNat ∧ c.toNat ≤ 90 then Char.ofNat (c.toNat + 32) else c

/-- `content_type.lower()` from line 70, modelled character-wise. -/
def pyLower (s : String) : String :=
  String.mk (s.toList.map lowerChar)

/-- The body of `download_pdf`'s `try:` block (lines 59-77): the status
check, the Content-Type check (`'pdf' not in content_type.lower()`, with a
missing header defaulting to `''`), and the size check, each raising an
`HTTPException` with status 400; on success the body bytes are returned. -/
def download_pdf_try (r : HttpResponse) : Except HTTPException (List Nat) :=
  if r.status ≠ 200 then
    Except.error (HTTPException.mk 400
      ("Failed to download PDF. Status code: " ++ toString r.status))
  else
    let content_type := r.contentTypeHeader.getD ""
    if pyContains (pyLower content_type) "pdf" = false then
      Except.error (HTTPException.mk 400
        ("URL does not point to a PDF file. Content-Type: " ++ content_type))
    else if r.body.length > MAX_PDF_SIZE then
      Except.error (HTTPException.mk 400 "PDF file is too large.")
    else
      Except.ok r.body

/-- `download_pdf` (lines 57-83).  `except aiohttp.ClientError` maps a
transport error to a 400; `except Exception` maps everything else — including
every `HTTPException` raised by the `try:` body, since `HTTPException`
subclasses `Exception` and is not an `aiohttp.ClientError` — to
`HTTPException(500, "Unexpected error occurred.")`. -/
def download_pdf (ev : FetchEvent) : Except HTTPException (List Nat) :=
  match ev with
  | FetchEvent.clientError =>
      Except.error (HTTPException.mk 400 "Client error occurred while downloading PDF.")
  | FetchEvent.unexpectedError =>
      Except.error (HTTPException.mk 500 "Unexpected error occurred.")
  | FetchEvent.response r =>
      match download_pdf_try r with
      | Except.ok bs => Except.ok bs
      | Except.error _ => Except.error (HTTPException.mk 500 "Unexpected error occurred.")

/-- The result of `fitz.open(stream=pdf_bytes, filetype="pdf")`: either the
buffer is unparseable (the library raises), or it yields a document with a
reported `page_count` and a deterministic page renderer
(`load_page`/`get_pixmap`/`tobytes("png")`, line 101-103), 0-based. -/
inductive PdfParse where
  | malformed
  | doc (page_count : Nat) (render : Nat → List Nat)

/-- `MAX_PAGE_COUNT = 300` from `convert_pdf_to_images` (line 90). -/
def MAX_PAGE_COUNT : Nat := 300

/-- The body of `convert_pdf_to_images`'s `try:` block after a successful
parse (lines 93-106): the page-count check raising an `HTTPException` with
status 400, then the render loop over `range(min(page_count, MAX_PAGE_COUNT))`
appending one PNG buffer per page in increasing page order. -/
def convert_pdf_to_images_try (page_count : Nat) (render : Nat → List Nat) :
    Except HTTPException (List (List Nat)) :=
  if page_count > MAX_PAGE_COUNT then
    Except.error (HTTPException.mk 400
      ("PDF has too many pages (" ++ toString page_count ++ "). Maximum allowed is "
        ++ toString MAX_PAGE_COUNT ++ "."))
  else
    Except.ok ((List.range (min page_count MAX_PAGE_COUNT)).map render)

/-- `convert_pdf_to_images` (lines 86-109).  `except Exception` catches both
a parse failure from `fitz.open` and the page-limit `HTTPException` (which
subclasses `Exception`), re-raising
`HTTPException(500, "Error converting PDF to images.")` in either case. -/
def convert_pdf_to_images (p : PdfParse) : Except HTTPException (List (List Nat)) :=
  match p with
  | PdfParse.malformed =>
      Except.error (HTTPException.mk 500 "Error converting PDF to images.")
  | PdfParse.doc page_count render =>
      match convert_pdf_to_images_try page_count render with
      | Except.ok l => Except.ok l
      | Except.error _ =>
          Except.error (HTTPException.mk 500 "Error converting PDF to images.")

/-- The 0-based indices of the pages on which `doc.load_page`/`get_pixmap`
actually run during `convert_pdf_to_images`: none when the parse fails, none
when the page-limit exception aborts the function before the loop (line 95),
otherwise all of `range(min(page_count, MAX_PAGE_COUNT))`. -/
def renderedPages (p : PdfParse) : List Nat :=
  match p with
  | PdfParse.malformed => []
  | PdfParse.doc page_count _ =>
      if page_count > MAX_PAGE_COUNT then []
      else List.range (min page_count MAX_PAGE_COUNT)

/-- One object stored in Google Drive, as far as the service touches it:
identifier, name, content, and whether the anyone/reader permission has been
granted. -/
structure DriveObject where
  id : String
  name : String
  content : List Nat
  isPublic : Bool
  deriving Repr, DecidableEq

/-- The Drive folder's state: the list of objects created so far. -/
structure DriveState where
  objects : List DriveObject
  deriving Repr, DecidableEq

/-- The Drive API's behaviour for one `upload_image_to_gdrive` call: whether
`files().create` succeeds and with which new object id, and whether the
subsequent `permissions().create` succeeds. -/
structure UploadEnv where
  createOk : Bool
  newId : String
  permOk : Bool
  deriving Repr, DecidableEq

/-- The shareable link built at line 134: `https://drive.google.com/uc?id=`
followed by the created object's id. -/
def shareLink (file_id : String) : String :=
  "https://drive.google.com/uc?id=" ++ file_id

/-- `upload_image_to_gdrive` (lines 112-138) as a state transition on the
Drive folder plus a result.  `files().create` adds the object (not yet
public); `permissions().create` then marks it public; the shareable link is
returned.  Any failure is caught by `except Exception` and re-raised as
`HTTPException(500, "Error uploading images.")`; a failure of the permission
step leaves the created object in place — nothing deletes it. -/
def upload_image_to_gdrive (env : UploadEnv) (s : DriveState)
    (image_bytes : List Nat) (filename : String) :
    DriveState × Except HTTPException String :=
  if env.createOk then
    let created : DriveObject :=
      { id := env.newId, name := filename, content := image_bytes, isPublic := false }
    let s1 : DriveState := { objects := s.objects ++ [created] }
    if env.permOk then
      let s2 : DriveState :=
        { objects := s1.objects.map
            (fun o => if o.id = env.newId then { o with isPublic := true } else o) }
      (s2, Except.ok (shareLink env.newId))
    else
      (s1, Except.error (HTTPException.mk 500 "Error uploading images."))
  else
    (s, Except.error (HTTPException.mk 500 "Error uploading images."))

/-- The value an upload task resolves with (its raised exception or returned
link); by construction of `upload_image_to_gdrive` it does not depend on the
Drive state the call starts from. -/
def uploadResult (env : UploadEnv) (image_bytes : List Nat) (filename : String) :
    Except HTTPException String :=
  (upload_image_to_gdrive env (DriveState.mk []) image_bytes filename).2

/-- The destination filename `page{idx + 1}.png` built at line 148 for the
image at 0-based position `idx`. -/
def pageName (idx : Nat) : String :=
  "page" ++ toString (idx + 1) ++ ".png"

/-- The list of upload tasks launched by `convert_pdf` (lines 147-150): one
per page image, in page order, task `idx` uploading image `idx` under the
name `page{idx + 1}.png`, with `envs idx` the Drive API's behaviour for that
task.  Entry `idx` is the value task `idx` resolves with. -/
def uploadResults (image_bytes_list : List (List Nat)) (envs : Nat → UploadEnv) :
    List (Except HTTPException String) :=
  image_bytes_list.enum.map (fun p => uploadResult (envs p.1) p.2 (pageName p.1))

/-- A completion schedule is the sequence of task indices in the order the
event loop completes them.  `firstError` is the exception `asyncio.gather`
propagates: the one of the earliest-completing failed task, if any. -/
def firstError (results : List (Except HTTPException String)) (sched : List Nat) :
    Option HTTPException :=
  sched.findSome? (fun j =>
    match results.get? j with
    | some (Except.error e) => some e
    | _ => none)

/-- The completion log of the successful tasks: as each scheduled task
finishes, its index and value are recorded, in completion order. -/
def okLog (results : List (Except HTTPException String)) (sched : List Nat) :
    List (Nat × String) :=
  sched.filterMap (fun j =>
    match results.get? j with
    | some (Except.ok v) => some (j, v)
    | _ => none)

/-- Read `count` values out of a completion log by original task index,
starting at index `start` — the indexed gathering that `asyncio.gather` does.
`none` when some required index never completed. -/
def collectFrom (log : List (Nat × String)) (start : Nat) : Nat → Option (List String)
  | 0 => some []
  | count + 1 =>
      match log.lookup start, collectFrom log (start + 1) count with
      | some v, some rest => some (v :: rest)
      | _, _ => none

/-- `await asyncio.gather(*upload_tasks)` under completion schedule `sched`:
if a scheduled task fails, its exception propagates (the earliest-completing
failure); otherwise the results are assembled by original index, independent
of the completion order.  `none` models an await that never returns because
the schedule misses some task. -/
def gatherE (results : List (Except HTTPException String)) (sched : List Nat) :
    Option (Except HTTPException (List String)) :=
  match firstError results sched with
  | some e => some (Except.error e)
  | none => (collectFrom (okLog results sched) 0 results.length).map Except.ok

/-- The `/convert-pdf` endpoint `convert_pdf` (lines 141-156): download, then
rasterize (`parse` being `fitz.open`'s behaviour on the downloaded bytes),
then the concurrent uploads gathered under schedule `sched`, then the
empty-result guard (lines 153-154).  The result is the JSON body's URL list
or the `HTTPException` the framework turns into the error response. -/
def convert_pdf (ev : FetchEvent) (parse : List Nat → PdfParse)
    (envs : Nat → UploadEnv) (sched : List Nat) :
    Option (Except HTTPException (List String)) :=
  match download_pdf ev with
  | Except.error e => some (Except.error e)
  | Except.ok pdf_bytes =>
      match convert_pdf_to_images (parse pdf_bytes) with
      | Except.error e => some (Except.error e)
      | Except.ok image_bytes_list =>
          match gatherE (uploadResults image_bytes_list envs) sched with
          | none => none
          | some (Except.error e) => some (Except.error e)
          | some (Except.ok image_urls) =>
              if image_urls.isEmpty then
                some (Except.error (HTTPException.mk 500 "No images were generated."))
              else
                some (Except.ok image_urls)

/-! ### Helper lemmas about the indexed-gather model -/

/-- Looking up a task index in the completion log recovers that task's value,
whatever position in the schedule the task completed at. -/
lemma lookup_okLog (results : List (Except HTTPException String)) (sched : List Nat)
    (i : Nat) (v : String) (hmem : i ∈ sched)
    (hv : results.get? i = some (Except.ok v)) :
    (okLog results sched).lookup i = some v := by
  induction sched with
  | nil => cases hmem
  | cons j tl ih =>
    rcases List.mem_cons.mp hmem with hij | htl
    · subst hij
      simp only [okLog, List.filterMap_cons, hv]
      simp [List.lookup_cons]
    · by_cases hij : i = j
      · subst hij
        simp only [okLog, List.filterMap_cons, hv]
        simp [List.lookup_cons]
      · have hne : (i == j) = false := beq_eq_false_iff_ne.mpr hij
        simp only [okLog, List.filterMap_cons]
        rcases hj : results.get? j with _ | r
        · simp only [List.get?_eq_getElem?] at hj
          simpa [okLog, hj] using ih htl
        · rcases r with e | w
          · simp only [List.get?_eq_getElem?] at hj
            simpa [okLog, hj] using ih htl
          · simp only [List.get?_eq_getElem?] at hj
            simpa [okLog, hj, List.lookup_cons, hne] using ih htl

/-- Indexed read-out of a log that answers every required index. -/
lemma collectFrom_eq (log : List (Nat × String)) (f : Nat → String) :
    ∀ count start, (∀ i, start ≤ i → i < start + count → log.lookup i = some (f i)) →
    collectFrom log start count = some ((List.range count).map (fun k => f (start + k))) := by
  intro count
  induction count with
  | zero => intro start _; simp [collectFrom]
  | succ c ih =>
    intro start h
    have hstart : log.lookup start = some (f start) := h start le_rfl (by omega)
    have hrest : collectFrom log (start + 1) c =
        some ((List.range c).map (fun k => f (start + 1 + k))) := by
      refine ih (start + 1) (fun i h1 h2 => h i (by omega) (by omega))
    simp only [collectFrom, hstart, hrest]
    rw [List.range_succ_eq_map, List.map_cons, List.map_map]
    refine congrArg some (congrArg₂ List.cons (by simp) ?_)
    refine List.map_congr_left (fun a _ => ?_)
    simp [Function.comp, Nat.succ_eq_add_one]
    ring_nf

/-- If every scheduled task completes successfully, `asyncio.gather`
propagates no exception. -/
lemma firstError_eq_none (results : List (Except HTTPException String)) (sched : List Nat)
    (h : ∀ j ∈ sched, ∃ v, results.get? j = some (Except.ok v)) :
    firstError results sched = none := by
  refine List.findSome?_eq_none_iff.mpr (fun j hj => ?_)
  obtain ⟨v, hv⟩ := h j hj
  simp only [List.get?_eq_getElem?] at hv
  simp [hv]

/-- The number of upload tasks equals the number of page images. -/
lemma uploadResults_length (image_bytes_list : List (List Nat)) (envs : Nat → UploadEnv) :
    (uploadResults image_bytes_list envs).length = image_bytes_list.length := by
  simp [uploadResults, List.enum_length]

/-- Task `i` of the launched uploads is the upload of image `i` under the
destination name `page{i + 1}.png`. -/
lemma uploadResults_get? (image_bytes_list : List (List Nat)) (envs : Nat → UploadEnv)
    (i : Nat) (hi : i < image_bytes_list.length) :
    (uploadResults image_bytes_list envs).get? i =
      some (uploadResult (envs i) (image_bytes_list.get ⟨i, hi⟩) (pageName i)) := by
  simp [uploadResults, List.get?_eq_getElem?, List.getElem?_map, List.getElem?_enum,
    List.getElem?_eq_getElem hi, List.get_eq_getElem]

/-- A Drive environment in which both API calls succeed makes the upload
return the share link of the new object. -/
lemma uploadResult_ok (env : UploadEnv) (img : List Nat) (nm : String)
    (hc : env.createOk = true) (hp : env.permOk = true) :
    uploadResult env img nm = Except.ok (shareLink env.newId) := by
  simp [uploadResult, upload_image_to_gdrive, hc, hp]

/-- Gathering under any completion schedule that is a permutation of the task
indices returns exactly the in-index-order results, provided every task
succeeds. -/
lemma gatherE_ok (results : List (Except HTTPException String)) (sched : List Nat)
    (f : Nat → String)
    (hperm : sched.Perm (List.range results.length))
    (hres : ∀ i, i < results.length → results.get? i = some (Except.ok (f i))) :
    gatherE results sched = some (Except.ok ((List.range results.length).map f)) := by
  have hmem : ∀ j ∈ sched, j < results.length := fun j hj =>
    List.mem_range.mp (hperm.mem_iff.mp hj)
  have hfe : firstError results sched = none :=
    firstError_eq_none results sched
      (fun j hj => ⟨f j, hres j (hmem j hj)⟩)
  have hlook : ∀ i, 0 ≤ i → i < 0 + results.length →
      (okLog results sched).lookup i = some (f i) := by
    intro i _ hi
    have hi2 : i < results.length := by omega
    exact lookup_okLog results sched i (f i)
      (hperm.mem_iff.mpr (List.mem_range.mpr hi2)) (hres i hi2)
  have hcol := collectFrom_eq (okLog results sched) f results.length 0 hlook
  have hmap : (List.range results.length).map (fun k => f (0 + k)) =
      (List.range results.length).map f :=
    List.map_congr_left (fun a _ => by simp)
  simp only [gatherE, hfe, hcol, hmap]
  rfl

/-- C2: under every completion ordering of the concurrent uploads (modelled
as a permutation of the task indices), the gathered URL list has one entry
per page image, and the entry at 0-based position `i` is exactly the link
returned by the upload of page `i + 1`, which was launched with destination
name `page{i + 1}.png`; completion order never reorders the output. -/
theorem upload_gather_preserves_page_order
    (images : List (List Nat)) (envs : Nat → UploadEnv) (sched : List Nat)
    (hperm : sched.Perm (List.range images.length))
    (hok : ∀ i, i < images.length → (envs i).createOk = true ∧ (envs i).permOk = true) :
    ∃ urls, gatherE (uploadResults images envs) sched = some (Except.ok urls) ∧
      urls.length = images.length ∧
      ∀ i, ∀ hi : i < images.length,
        urls.get? i = some (shareLink ((envs i).newId)) ∧
        (uploadResults images envs).get? i =
          some (Except.ok (shareLink ((envs i).newId))) ∧
        (uploadResults images envs).get? i =
          some (uploadResult (envs i) (images.get ⟨i, hi⟩) (pageName i)) := by
  have hlen := uploadResults_length images envs
  have hres : ∀ i, i < (uploadResults images envs).length →
      (uploadResults images envs).get? i =
        some (Except.ok (shareLink ((envs i).newId))) := by
    intro i hi
    have hi2 : i < images.length := by omega
    rw [uploadResults_get? images envs i hi2,
      uploadResult_ok (envs i) _ _ (hok i hi2).1 (hok i hi2).2]
  have hgather := gatherE_ok (uploadResults images envs) sched
    (fun i => shareLink ((envs i).newId)) (by rw [hlen]; exact hperm) hres
  refine ⟨(List.range (uploadResults images envs).length).map
      (fun i => shareLink ((envs i).newId)), hgather, by simp [hlen], ?_⟩
  intro i hi
  have hi2 : i < (uploadResults images envs).length := by omega
  refine ⟨?_, hres i hi2, uploadResults_get? images envs i hi⟩
  simp [List.get?_eq_getElem?, List.getElem?_map, List.getElem?_range hi2]

/-- Witness for C2 on a two-page document whose uploads complete in reverse
order. -/
theorem upload_gather_preserves_page_order_witness :
    List.Perm [1, 0] (List.range ([[0], [1]] : List (List Nat)).length) ∧
    (∀ i, i < ([[0], [1]] : List (List Nat)).length →
      ((fun k => UploadEnv.mk true (toString k) true) i).createOk = true ∧
      ((fun k => UploadEnv.mk true (toString k) true) i).permOk = true) ∧
    ∃ urls, gatherE (uploadResults [[0], [1]] (fun k => UploadEnv.mk true (toString k) true))
        [1, 0] = some (Except.ok urls) ∧
      urls.length = ([[0], [1]] : List (List Nat)).length ∧
      ∀ i, ∀ hi : i < ([[0], [1]] : List (List Nat)).length,
        urls.get? i = some (shareLink (((fun k => UploadEnv.mk true (toString k) true) i).newId)) ∧
        (uploadResults [[0], [1]] (fun k => UploadEnv.mk true (toString k) true)).get? i =
          some (Except.ok (shareLink (((fun k => UploadEnv.mk true (toString k) true) i).newId))) ∧
        (uploadResults [[0], [1]] (fun k => UploadEnv.mk true (toString k) true)).get? i =
          some (uploadResult ((fun k => UploadEnv.mk true (toString k) true) i)
            (([[0], [1]] : List (List Nat)).get ⟨i, hi⟩) (pageName i)) :=
  ⟨by decide, by decide,
    upload_gather_preserves_page_order [[0], [1]]
      (fun k => UploadEnv.mk true (toString k) true) [1, 0] (by decide) (by decide)⟩

/-- C3: on every parseable PDF within the page limit, the rasterizer returns
exactly one PNG buffer per reported page, in increasing page order, with no
silent truncation. -/
theorem rasterizer_emits_all_pages_in_order (page_count : Nat) (render : Nat → List Nat)
    (h : page_count ≤ MAX_PAGE_COUNT) :
    ∃ pages, convert_pdf_to_images (PdfParse.doc page_count render) = Except.ok pages ∧
      pages.length = page_count ∧
      ∀ i, i < page_count → pages.get? i = some (render i) := by
  have hgt : ¬ page_count > MAX_PAGE_COUNT := Nat.not_lt.mpr h
  refine ⟨(List.range page_count).map render, ?_, by simp, ?_⟩
  · simp [convert_pdf_to_images, convert_pdf_to_images_try, hgt, Nat.min_eq_left h]
  · intro i hi
    simp [List.get?_eq_getElem?, List.getElem?_map, List.getElem?_range hi]

/-- Witness for C3 on a concrete two-page document. -/
theorem rasterizer_emits_all_pages_in_order_witness :
    2 ≤ MAX_PAGE_COUNT ∧
    ∃ pages, convert_pdf_to_images (PdfParse.doc 2 (fun i => [i])) = Except.ok pages ∧
      pages.length = 2 ∧
      ∀ i, i < 2 → pages.get? i = some [i] :=
  ⟨by decide, rasterizer_emits_all_pages_in_order 2 (fun i => [i]) (by decide)⟩

/-- A 200 response with a PDF Content-Type but an oversized body is mapped
by `download_pdf` to the generic 500 error (the size-check 400 is swallowed
by the catch-all handler). -/
lemma download_pdf_oversized (ct : String) (body : List Nat)
    (hct : pyContains (pyLower ct) "pdf" = true)
    (hsize : body.length > MAX_PDF_SIZE) :
    download_pdf (FetchEvent.response (HttpResponse.mk 200 (some ct) body)) =
      Except.error (HTTPException.mk 500 "Unexpected error occurred.") := by
  simp [download_pdf, download_pdf_try, hct, hsize]

/-- C1: evaluation of the pipeline at the claim's failing inputs.  Every
client-caused validation failure — non-200 status, non-PDF Content-Type,
oversized body, too many pages — surfaces as HTTP 500, not 400: the 400
`HTTPException`s raised by the `try:` bodies are caught by the functions' own
`except Exception` handlers (HTTPException subclasses Exception) and
re-raised as generic 500 errors.  In particular a URL answering 404 makes the
whole request fail with status 500. -/
theorem validation_failures_surface_as_500 :
    download_pdf (FetchEvent.response (HttpResponse.mk 404 (some "application/pdf") [37])) =
      Except.error (HTTPException.mk 500 "Unexpected error occurred.") ∧
    download_pdf (FetchEvent.response (HttpResponse.mk 200 (some "text/html") [37])) =
      Except.error (HTTPException.mk 500 "Unexpected error occurred.") ∧
    download_pdf (FetchEvent.response (HttpResponse.mk 200 (some "application/pdf")
        (List.replicate (MAX_PDF_SIZE + 1) 0))) =
      Except.error (HTTPException.mk 500 "Unexpected error occurred.") ∧
    convert_pdf_to_images (PdfParse.doc 301 (fun _ => [])) =
      Except.error (HTTPException.mk 500 "Error converting PDF to images.") ∧
    convert_pdf (FetchEvent.response (HttpResponse.mk 404 (some "application/pdf") [37]))
      (fun _ => PdfParse.malformed) (fun _ => UploadEnv.mk true "a" true) [] =
      some (Except.error (HTTPException.mk 500 "Unexpected error occurred.")) := by
  refine ⟨by rfl, by rfl, ?_, by rfl, by rfl⟩
  exact download_pdf_oversized "application/pdf" (List.replicate (MAX_PDF_SIZE + 1) 0)
    (by decide) (by rw [List.length_replicate]; exact Nat.lt_succ_self _)

/-- C4: evaluation of the rasterizer at a 301-page document.  The page-limit
check fires before any page is rendered (the result is the same for every
renderer, and the rendered-page trace is empty), so there is never a
truncation to 300 pages — but the page-limit `HTTPException(400, ...)` built
at line 96 is swallowed by the function's own `except Exception` and the
observable failure is the generic `HTTPException(500, "Error converting PDF
to images.")`, not a page-limit error. -/
theorem page_limit_hard_reject_wrapped_as_500 :
    convert_pdf_to_images (PdfParse.doc 301 (fun k => [k])) =
      Except.error (HTTPException.mk 500 "Error converting PDF to images.") ∧
    renderedPages (PdfParse.doc 301 (fun k => [k])) = [] ∧
    (∀ render1 render2 : Nat → List Nat,
      convert_pdf_to_images (PdfParse.doc 301 render1) =
        convert_pdf_to_images (PdfParse.doc 301 render2)) ∧
    HTTPException.mk 500 "Error converting PDF to images." ≠
      HTTPException.mk 400 "PDF has too many pages (301). Maximum allowed is 300." := by
  refine ⟨by rfl, by rfl, fun r1 r2 => by rfl, by decide⟩

/-- C5: a 200 response whose Content-Type does not contain "pdf"
(case-insensitively) is rejected by the fetch step with the same error for
every possible body — the body is never consulted. -/
theorem non_pdf_content_type_rejected_for_every_body (ct : String) (body : List Nat)
    (h : pyContains (pyLower ct) "pdf" = false) :
    download_pdf (FetchEvent.response (HttpResponse.mk 200 (some ct) body)) =
      Except.error (HTTPException.mk 500 "Unexpected error occurred.") := by
  simp [download_pdf, download_pdf_try, h]

/-- Witness for C5 at Content-Type `text/html` and a nonempty body. -/
theorem non_pdf_content_type_rejected_for_every_body_witness :
    pyContains (pyLower "text/html") "pdf" = false ∧
    download_pdf (FetchEvent.response (HttpResponse.mk 200 (some "text/html") [1, 2, 3])) =
      Except.error (HTTPException.mk 500 "Unexpected error occurred.") :=
  ⟨by decide, non_pdf_content_type_rejected_for_every_body "text/html" [1, 2, 3] (by decide)⟩

/-- C6: a fetched body strictly larger than `MAX_PDF_SIZE` makes the fetch
step fail, and the pipeline's outcome is then the download failure itself,
identical for every possible rasterizer behaviour — rasterization is never
invoked on that body. -/
theorem oversized_body_rejected_before_rasterization (ct : String) (body : List Nat)
    (hct : pyContains (pyLower ct) "pdf" = true)
    (hsize : body.length > MAX_PDF_SIZE) :
    download_pdf (FetchEvent.response (HttpResponse.mk 200 (some ct) body)) =
      Except.error (HTTPException.mk 500 "Unexpected error occurred.") ∧
    ∀ (parse1 parse2 : List Nat → PdfParse) (envs : Nat → UploadEnv) (sched : List Nat),
      convert_pdf (FetchEvent.response (HttpResponse.mk 200 (some ct) body)) parse1 envs sched =
        convert_pdf (FetchEvent.response (HttpResponse.mk 200 (some ct) body)) parse2 envs sched ∧
      convert_pdf (FetchEvent.response (HttpResponse.mk 200 (some ct) body)) parse1 envs sched =
        some (Except.error (HTTPException.mk 500 "Unexpected error occurred.")) := by
  have hdl := download_pdf_oversized ct body hct hsize
  refine ⟨hdl, fun parse1 parse2 envs sched => ?_⟩
  constructor
  · simp [convert_pdf, hdl]
  · simp [convert_pdf, hdl]

/-- Witness for C6 at a body one byte over the 10 MiB limit. -/
theorem oversized_body_rejected_before_rasterization_witness :
    pyContains (pyLower "application/pdf") "pdf" = true ∧
    (List.replicate (MAX_PDF_SIZE + 1) (0 : Nat)).length > MAX_PDF_SIZE ∧
    (download_pdf (FetchEvent.response (HttpResponse.mk 200 (some "application/pdf")
        (List.replicate (MAX_PDF_SIZE + 1) 0))) =
      Except.error (HTTPException.mk 500 "Unexpected error occurred.") ∧
    ∀ (parse1 parse2 : List Nat → PdfParse) (envs : Nat → UploadEnv) (sched : List Nat),
      convert_pdf (FetchEvent.response (HttpResponse.mk 200 (some "application/pdf")
          (List.replicate (MAX_PDF_SIZE + 1) 0))) parse1 envs sched =
        convert_pdf (FetchEvent.response (HttpResponse.mk 200 (some "application/pdf")
          (List.replicate (MAX_PDF_SIZE + 1) 0))) parse2 envs sched ∧
      convert_pdf (FetchEvent.response (HttpResponse.mk 200 (some "application/pdf")
          (List.replicate (MAX_PDF_SIZE + 1) 0))) parse1 envs sched =
        some (Except.error (HTTPException.mk 500 "Unexpected error occurred."))) :=
  ⟨by decide, by rw [List.length_replicate]; exact Nat.lt_succ_self _,
    oversized_body_rejected_before_rasterization "application/pdf"
      (List.replicate (MAX_PDF_SIZE + 1) 0) (by decide)
      (by rw [List.length_replicate]; exact Nat.lt_succ_self _)⟩

/-- C7: a fully successful upload returns exactly
`https://drive.google.com/uc?id=` followed by the created object's id, and
the upload task at 0-based position `idx` is launched with destination name
`page{idx + 1}.png`. -/
theorem upload_returns_drive_link_and_page_names (env : UploadEnv) (s : DriveState)
    (img : List Nat) (images : List (List Nat)) (envs : Nat → UploadEnv) (idx : Nat)
    (hc : env.createOk = true) (hp : env.permOk = true) (hidx : idx < images.length) :
    (upload_image_to_gdrive env s img (pageName idx)).2 =
      Except.ok ("https://drive.google.com/uc?id=" ++ env.newId) ∧
    (uploadResults images envs).get? idx =
      some (uploadResult (envs idx) (images.get ⟨idx, hidx⟩) (pageName idx)) ∧
    pageName idx = "page" ++ toString (idx + 1) ++ ".png" := by
  refine ⟨?_, uploadResults_get? images envs idx hidx, rfl⟩
  simp [upload_image_to_gdrive, hc, hp, shareLink]

/-- Witness for C7 at a concrete one-page upload. -/
theorem upload_returns_drive_link_and_page_names_witness :
    (UploadEnv.mk true "abc123" true).createOk = true ∧
    (UploadEnv.mk true "abc123" true).permOk = true ∧
    (0 : Nat) < ([[7]] : List (List Nat)).length ∧
    ((upload_image_to_gdrive (UploadEnv.mk true "abc123" true) (DriveState.mk []) [7]
        (pageName 0)).2 =
      Except.ok ("https://drive.google.com/uc?id=" ++ (UploadEnv.mk true "abc123" true).newId) ∧
    (uploadResults [[7]] (fun _ => UploadEnv.mk true "abc123" true)).get? 0 =
      some (uploadResult ((fun _ => UploadEnv.mk true "abc123" true) 0)
        (([[7]] : List (List Nat)).get ⟨0, by decide⟩) (pageName 0)) ∧
    pageName 0 = "page" ++ toString (0 + 1) ++ ".png") :=
  ⟨by decide, by decide, by decide,
    upload_returns_drive_link_and_page_names (UploadEnv.mk true "abc123" true)
      (DriveState.mk []) [7] [[7]] (fun _ => UploadEnv.mk true "abc123" true) 0
      (by decide) (by decide) (by decide)⟩

/-- C8: when `files().create` succeeds but `permissions().create` fails, the
upload fails with the 500 upload error, and the Drive folder still contains
the newly created object, not yet public, appended after the objects already
present — nothing deletes or rolls it back. -/
theorem failed_permission_leaves_object_in_place (env : UploadEnv) (s : DriveState)
    (img : List Nat) (nm : String) (hc : env.createOk = true) (hp : env.permOk = false) :
    upload_image_to_gdrive env s img nm =
      (DriveState.mk (s.objects ++ [DriveObject.mk env.newId nm img false]),
        Except.error (HTTPException.mk 500 "Error uploading images.")) := by
  simp [upload_image_to_gdrive, hc, hp]

/-- Witness for C8: a second upload whose permission grant fails leaves the
folder holding the first (public) object and the new private one. -/
theorem failed_permission_leaves_object_in_place_witness :
    (UploadEnv.mk true "id1" false).createOk = true ∧
    (UploadEnv.mk true "id1" false).permOk = false ∧
    upload_image_to_gdrive (UploadEnv.mk true "id1" false)
        (DriveState.mk [DriveObject.mk "id0" "page1.png" [1] true]) [2] "page2.png" =
      (DriveState.mk ([DriveObject.mk "id0" "page1.png" [1] true] ++
          [DriveObject.mk "id1" "page2.png" [2] false]),
        Except.error (HTTPException.mk 500 "Error uploading images.")) :=
  ⟨by decide, by decide,
    failed_permission_leaves_object_in_place (UploadEnv.mk true "id1" false)
      (DriveState.mk [DriveObject.mk "id0" "page1.png" [1] true]) [2] "page2.png"
      (by decide) (by decide)⟩

/-- C9: whenever the run reaches the gather with a successfully assembled but
empty URL list, the coordinator fails with the empty-result error
`HTTPException(500, "No images were generated.")` instead of returning an
empty success response. -/
theorem empty_url_list_fails_with_500 (ev : FetchEvent) (parse : List Nat → PdfParse)
    (envs : Nat → UploadEnv) (sched : List Nat) (b : List Nat) (images : List (List Nat))
    (hdl : download_pdf ev = Except.ok b)
    (hconv : convert_pdf_to_images (parse b) = Except.ok images)
    (hg : gatherE (uploadResults images envs) sched = some (Except.ok [])) :
    convert_pdf ev parse envs sched =
      some (Except.error (HTTPException.mk 500 "No images were generated.")) := by
  simp [convert_pdf, hdl, hconv, hg]

/-- Witness for C9 on a zero-page document. -/
theorem empty_url_list_fails_with_500_witness :
    download_pdf (FetchEvent.response (HttpResponse.mk 200 (some "application/pdf") [37])) =
      Except.ok [37] ∧
    convert_pdf_to_images ((fun _ => PdfParse.doc 0 (fun _ => [])) ([37] : List Nat)) =
      Except.ok [] ∧
    gatherE (uploadResults [] (fun _ => UploadEnv.mk true "a" true)) [] =
      some (Except.ok []) ∧
    convert_pdf (FetchEvent.response (HttpResponse.mk 200 (some "application/pdf") [37]))
      (fun _ => PdfParse.doc 0 (fun _ => [])) (fun _ => UploadEnv.mk true "a" true) [] =
      some (Except.error (HTTPException.mk 500 "No images were generated.")) :=
  ⟨by rfl, by rfl, by rfl,
    empty_url_list_fails_with_500
      (FetchEvent.response (HttpResponse.mk 200 (some "application/pdf") [37]))
      (fun _ => PdfParse.doc 0 (fun _ => [])) (fun _ => UploadEnv.mk true "a" true) []
      [37] [] (by rfl) (by rfl) (by rfl)⟩

/-- C10: a parseable PDF reporting zero pages is accepted by the download and
rasterization stages (the rasterizer succeeds with an empty page list), so
the coordinator's empty-result guard is reachable and the request fails with
HTTP status 500 even though fetch and rasterization both succeeded. -/
theorem zero_page_pdf_reaches_empty_guard_with_500 :
    download_pdf (FetchEvent.response (HttpResponse.mk 200 (some "application/pdf") [42])) =
      Except.ok [42] ∧
    convert_pdf_to_images (PdfParse.doc 0 (fun _ => [9])) = Except.ok [] ∧
    convert_pdf (FetchEvent.response (HttpResponse.mk 200 (some "application/pdf") [42]))
      (fun _ => PdfParse.doc 0 (fun _ => [9])) (fun _ => UploadEnv.mk true "b" true) [] =
      some (Except.error (HTTPException.mk 500 "No images were generated.")) ∧
    (HTTPException.mk 500 "No images were generated.").statusCode = 500 :=
  ⟨by rfl, by rfl, by rfl, by rfl⟩
